import Mathlib

/-!
Verification of the Portfolio-Chatbot agent pipeline.

Shallow embedding of the retrieval-and-rerank subsystem
(`src/tools/retrieval.py`), the presentation agent
(`src/agents/final_presentation.py`), the orchestrator
(`src/agents/orchestrator.py`), the pipeline coordinator
(`src/agent_runner.py`) and the UI entry point (`main.py`).

External effects (vector store, cross-encoder model, completion
service, event stream) are passed in as explicit parameters:
the retriever's result is a candidate list, the cross-encoder is a
scoring function, the completion service's parsed output is an
`Option`, and a streaming response is a list of stream events.
Relevance scores are modelled as rationals.
-/

namespace PortfolioChatbot

/-! ### Retrieval and reranking (`src/tools/retrieval.py`) -/

/-- A retrieved document (langchain `Document`): only `page_content`
is consumed by the retrieval tool. -/
structure Document where
  page_content : String
deriving DecidableEq

/-- `RetrievalConfig` from `src/config.py` (the fields the rerank path
reads). Default threshold is `0.0`. -/
structure RetrievalConfig where
  retrieval_k : Nat := 10
  reranker_threshold : Rat := 0

/-- `RetrievalDeps`: the cross-encoder is a pure scoring function on
`(query, passage)` pairs. -/
structure RetrievalDeps where
  reranker : String × String → Rat
  config : RetrievalConfig

/-- Descending-by-score order on `(text, score)` pairs: `a` may come
before `b` when `b`'s score is at most `a`'s. -/
def descScore (a b : String × Rat) : Prop := b.2 ≤ a.2

instance : DecidableRel descScore :=
  fun a b => inferInstanceAs (Decidable (b.2 ≤ a.2))

instance : IsTotal (String × Rat) descScore :=
  ⟨fun a b => le_total b.2 a.2⟩

instance : IsTrans (String × Rat) descScore :=
  ⟨fun _ _ _ hab hbc => le_trans hbc hab⟩

/-- `reranker_scores = deps.reranker.predict(reranker_input)` where
`reranker_input = [(search_query, doc.page_content) for doc in retrieved_results]`. -/
def rerankerScores (deps : RetrievalDeps) (search_query : String)
    (retrieved_results : List Document) : List Rat :=
  (retrieved_results.map (fun doc => (search_query, doc.page_content))).map deps.reranker

/-- `ranked_docs = [(doc.page_content, score) for doc, score in
zip(retrieved_results, reranker_scores) if score > deps.config.reranker_threshold]`. -/
def rankedDocs (deps : RetrievalDeps) (search_query : String)
    (retrieved_results : List Document) : List (String × Rat) :=
  ((retrieved_results.zip (rerankerScores deps search_query retrieved_results)).filter
      (fun p => decide (deps.config.reranker_threshold < p.2))).map
    (fun p => (p.1.page_content, p.2))

/-- `ranked_docs.sort(key=lambda x: x[1], reverse=True)`: Python's sort
is stable, and `reverse=True` keeps equal keys in original order, so the
net effect is a stable descending sort. -/
def rankedDocsSorted (deps : RetrievalDeps) (search_query : String)
    (retrieved_results : List Document) : List (String × Rat) :=
  List.insertionSort descScore (rankedDocs deps search_query retrieved_results)

/-- `retrieve_and_rerank`: filter by threshold, sort by score
descending, return only the document texts. -/
def retrieve_and_rerank (deps : RetrievalDeps) (search_query : String)
    (retrieved_results : List Document) : List String :=
  (rankedDocsSorted deps search_query retrieved_results).map Prod.fst


/-! ### Data model (`src/models/schemas.py`) -/

/-- `DownstreamAgent` enum. -/
inductive DownstreamAgent
  | professional_info
  | public_persona
  | final_presentation
deriving DecidableEq

/-- `Support` enum. -/
inductive Support
  | resume
  | old_resume
  | about_sanath
  | github
  | retrieve
deriving DecidableEq

/-- `Reinterpretation` model. -/
structure Reinterpretation where
  needed : Bool
  rewritten_question : Option String := none
deriving DecidableEq

/-- `DownstreamRequest` model. -/
structure DownstreamRequest where
  agent : DownstreamAgent
  task : String
  constraints : Option String := none
deriving DecidableEq

/-- `RefusalDirective` model. -/
structure RefusalDirective where
  needed : Bool
  reason : Option String := none
  style : Option String := some "polite and humorous with redirect"
deriving DecidableEq

/-- `OrchestratorRoute` model. -/
structure OrchestratorRoute where
  reinterpretation : Reinterpretation
  downstream_requests : List DownstreamRequest
  refusal_directive : RefusalDirective
deriving DecidableEq

/-- `CoverageAssessment` model. -/
structure CoverageAssessment where
  sufficient : Bool
  missing_points : List String
deriving DecidableEq

/-- `Claims` model. -/
structure Claims where
  documents : List String
  support : Support
deriving DecidableEq

/-- `EvidenceBundle` model. -/
structure EvidenceBundle where
  coverage_assessment : CoverageAssessment
  claims : List Claims
  project_leads : Option (List String) := none
  safe_redirect_if_missing : Option String := none
deriving DecidableEq

/-- `AgentSource` enum. -/
inductive AgentSource
  | orchestrator
  | professional_info
  | public_persona
  | final_presentation
deriving DecidableEq

/-- One element of the pipeline's event stream (the common shape of
`OrchestratorEvent` / `ProfessionalInfoEvent` / `FinalPresentationEvent`). -/
structure AgentEvent where
  from_ : AgentSource
  output : String
deriving DecidableEq

/-! ### JSON serialization (pydantic `model_dump_json`) -/

/-- JSON string escaping of one character (quote, backslash, newline). -/
def jsonEscapeChar (c : Char) : String :=
  if c = '"' then "\\\"" else if c = '\\' then "\\\\"
  else if c = '\n' then "\\n" else String.singleton c

/-- JSON rendering of a string value. -/
def jsonStr (s : String) : String :=
  "\"" ++ String.join (s.data.map jsonEscapeChar) ++ "\""

/-- JSON rendering of an optional string (`null` when absent). -/
def jsonOptStr : Option String → String
  | none => "null"
  | some s => jsonStr s

/-- JSON rendering of a boolean. -/
def jsonBool : Bool → String
  | true => "true"
  | false => "false"

/-- JSON rendering of an array from already-rendered elements. -/
def jsonArray (elems : List String) : String :=
  "[" ++ String.intercalate "," elems ++ "]"

/-- Serialized enum value of a `DownstreamAgent`. -/
def DownstreamAgent.value : DownstreamAgent → String
  | .professional_info => "professional_info"
  | .public_persona => "public_persona"
  | .final_presentation => "final_presentation"

/-- Serialized enum value of a `Support`. -/
def Support.value : Support → String
  | .resume => "resume"
  | .old_resume => "old_resume"
  | .about_sanath => "about_sanath"
  | .github => "github"
  | .retrieve => "retrieve"

/-- `Reinterpretation.model_dump_json()`. -/
def Reinterpretation.model_dump_json (r : Reinterpretation) : String :=
  "\x7b\"needed\":" ++ jsonBool r.needed
    ++ ",\"rewritten_question\":" ++ jsonOptStr r.rewritten_question ++ "\x7d"

/-- `DownstreamRequest.model_dump_json()`. -/
def DownstreamRequest.model_dump_json (r : DownstreamRequest) : String :=
  "\x7b\"agent\":" ++ jsonStr r.agent.value ++ ",\"task\":" ++ jsonStr r.task
    ++ ",\"constraints\":" ++ jsonOptStr r.constraints ++ "\x7d"

/-- `RefusalDirective.model_dump_json()`. -/
def RefusalDirective.model_dump_json (r : RefusalDirective) : String :=
  "\x7b\"needed\":" ++ jsonBool r.needed ++ ",\"reason\":" ++ jsonOptStr r.reason
    ++ ",\"style\":" ++ jsonOptStr r.style ++ "\x7d"

/-- `OrchestratorRoute.model_dump_json()`. -/
def OrchestratorRoute.model_dump_json (r : OrchestratorRoute) : String :=
  "\x7b\"reinterpretation\":" ++ r.reinterpretation.model_dump_json
    ++ ",\"downstream_requests\":"
    ++ jsonArray (r.downstream_requests.map DownstreamRequest.model_dump_json)
    ++ ",\"refusal_directive\":" ++ r.refusal_directive.model_dump_json ++ "\x7d"

/-- `CoverageAssessment.model_dump_json()`. -/
def CoverageAssessment.model_dump_json (c : CoverageAssessment) : String :=
  "\x7b\"sufficient\":" ++ jsonBool c.sufficient
    ++ ",\"missing_points\":" ++ jsonArray (c.missing_points.map jsonStr) ++ "\x7d"

/-- `Claims.model_dump_json()`. -/
def Claims.model_dump_json (c : Claims) : String :=
  "\x7b\"documents\":" ++ jsonArray (c.documents.map jsonStr)
    ++ ",\"support\":" ++ jsonStr c.support.value ++ "\x7d"

/-- `EvidenceBundle.model_dump_json()`. -/
def EvidenceBundle.model_dump_json (e : EvidenceBundle) : String :=
  "\x7b\"coverage_assessment\":" ++ e.coverage_assessment.model_dump_json
    ++ ",\"claims\":" ++ jsonArray (e.claims.map Claims.model_dump_json)
    ++ ",\"project_leads\":"
    ++ (match e.project_leads with
        | none => "null"
        | some ps => jsonArray (ps.map jsonStr))
    ++ ",\"safe_redirect_if_missing\":" ++ jsonOptStr e.safe_redirect_if_missing ++ "\x7d"

/-! ### Final presentation agent (`src/agents/final_presentation.py`) -/

/-- One event of the completion service's response stream: a text
delta, the explicit completion marker, or any other event type. -/
inductive StreamEvent
  | output_text_delta (delta : String)
  | completed
  | other
deriving DecidableEq

/-- `FinalPresentationAgent.run`'s streaming loop: yield each
`response.output_text.delta`, stop at `response.completed`; the list of
yielded fragments is the run's only observable outcome. A stream that
ends without the completion marker simply exhausts the loop. -/
def finalPresentationRun : List StreamEvent → List String
  | [] => []
  | .output_text_delta d :: rest => d :: finalPresentationRun rest
  | .completed :: _ => []
  | .other :: rest => finalPresentationRun rest

/-- Python `repr` of a list of strings, as rendered by
`f"Claims: \x7bclaims\x7d"` when `claims` is a list. -/
def pyListRepr (xs : List String) : String :=
  "[" ++ String.intercalate ", " (xs.map (fun s => "'" ++ s ++ "'")) ++ "]"

/-- Python truthiness fallback `s or "none"` for an optional string. -/
def orNone : Option String → String
  | none => "none"
  | some s => if s.isEmpty then "none" else s

/-- The `user_input` local of `FinalPresentationAgent._format_input`:
the six formatted lines before the optional task directive. -/
def format_input_base (user_query : String) (evidence_bundle : Option EvidenceBundle)
    (orchestrator_output : OrchestratorRoute) : String :=
  let coverage := match evidence_bundle with
    | some eb => eb.coverage_assessment.model_dump_json
    | none => "none"
  let claims := match evidence_bundle with
    | some eb => pyListRepr (eb.claims.map Claims.model_dump_json)
    | none => "none"
  let projects := match evidence_bundle with
    | some eb => String.intercalate ", " (eb.project_leads.getD [])
    | none => "none"
  let redirect := match evidence_bundle with
    | some eb => orNone eb.safe_redirect_if_missing
    | none => "none"
  "Original user query: " ++ user_query ++ "\n"
    ++ "Coverage assessment: " ++ coverage ++ "\n"
    ++ "Claims: " ++ claims ++ "\n"
    ++ "Relevant projects: " ++ projects ++ "\n"
    ++ "Safe redirect: " ++ redirect ++ "\n"
    ++ "Refusal directive: " ++ orchestrator_output.refusal_directive.model_dump_json ++ "\n"

/-- `FinalPresentationAgent._format_input`: the base prompt, plus
`"Task directive: " + downstream_requests[-1].task` appended when
`downstream_requests` is non-empty. -/
def format_input (user_query : String) (evidence_bundle : Option EvidenceBundle)
    (orchestrator_output : OrchestratorRoute) : String :=
  let user_input := format_input_base user_query evidence_bundle orchestrator_output
  match orchestrator_output.downstream_requests.getLast? with
  | some last => user_input ++ "Task directive: " ++ last.task
  | none => user_input

/-! ### Orchestrator agent and pipeline (`src/agents/orchestrator.py`,
`src/agent_runner.py`) -/

/-- Pipeline-fatal failures (the spec's error taxonomy for the parts
modelled here; the source raises a plain exception with a matching
message). -/
inductive PipelineError
  | routingParseFailure
deriving DecidableEq

/-- `OrchestratorAgent.run`: the completion service's
`response.output_parsed` is either a parsed `OrchestratorRoute` or
empty; an empty parse raises (`RoutingParseFailure`), with no retry. -/
def orchestratorRun (output_parsed : Option OrchestratorRoute) :
    Except PipelineError OrchestratorRoute :=
  match output_parsed with
  | some result => .ok result
  | none => .error .routingParseFailure

/-- `AgentRunner._format_professional_info_prompt`. -/
def format_professional_info_prompt (user_query : String)
    (request : DownstreamRequest) : String :=
  "Original user query: " ++ user_query ++ "\n"
    ++ "Task: " ++ request.task ++ "\n"
    ++ "Constraints: " ++ orNone request.constraints

/-- `AgentRunner.process_query`: route, then one evidence run and event
per `professional_info` downstream request (`public_persona` only
prints), then one presentation event per streamed fragment. Returns the
events yielded before termination and the error that aborted the
generator, if any; a routing parse failure aborts before any event. -/
def process_query (output_parsed : Option OrchestratorRoute)
    (professional_info_run : String → EvidenceBundle)
    (presentation_stream : List StreamEvent) (user_query : String) :
    List AgentEvent × Option PipelineError :=
  match orchestratorRun output_parsed with
  | .error e => ([], some e)
  | .ok orchestrator_output =>
    let routingEvents : List AgentEvent :=
      [⟨.orchestrator, orchestrator_output.model_dump_json⟩]
    let evidenceEvents : List AgentEvent :=
      orchestrator_output.downstream_requests.filterMap (fun request =>
        if request.agent = DownstreamAgent.professional_info then
          some ⟨.professional_info,
            (professional_info_run
              (format_professional_info_prompt user_query request)).model_dump_json⟩
        else none)
    let presentationEvents : List AgentEvent :=
      (finalPresentationRun presentation_stream).map
        (fun fragment => ⟨.final_presentation, fragment⟩)
    (routingEvents ++ evidenceEvents ++ presentationEvents, none)

/-! ### UI entry point (`main.py`, `ChatbotUI.stream_response`) -/

/-- Whitespace characters removed by Python's `str.strip()` (the ones
expressible here). -/
def pyIsSpace (c : Char) : Bool :=
  c = ' ' || c = '\t' || c = '\n' || c = '\r'

/-- Python `str.strip()`: drop leading and trailing whitespace. -/
def pyStrip (s : String) : String :=
  ⟨((s.data.dropWhile pyIsSpace).reverse.dropWhile pyIsSpace).reverse⟩

/-- Python truthiness test `not prompt or not prompt.strip()`: the
prompt is empty or strips to the empty string. -/
def blankPrompt (prompt : String) : Prop :=
  prompt = "" ∨ pyStrip prompt = ""

instance (prompt : String) : Decidable (blankPrompt prompt) :=
  inferInstanceAs (Decidable (_ ∨ _))

/-- One entry of a Gradio chat history / agent conversation. -/
structure Message where
  role : String
  content : String
deriving DecidableEq

/-- Observable outcome of one `stream_response` call: the display-only
chat history, the agent-facing conversation transcript, the accumulated
final response, whether `process_query` was entered at all, and the
error that escaped the generator, if any. -/
structure StreamOutcome where
  chatbot : List Message
  conversation : List Message
  final_response : String
  agents_invoked : Bool
  error : Option PipelineError
deriving DecidableEq

/-- The per-event body of `stream_response`'s `async for` loop:
orchestrator / professional-info / public-persona outputs are appended
to the conversation; presentation fragments accumulate into the final
response and the last chat bubble. State is
`(chatbot, conversation, final_response)`. -/
def streamResponseStep (st : List Message × List Message × String)
    (event : AgentEvent) : List Message × List Message × String :=
  match event.from_ with
  | .orchestrator | .professional_info | .public_persona =>
    (st.1, st.2.1 ++ [⟨"assistant", event.output⟩], st.2.2)
  | .final_presentation =>
    (st.1.dropLast ++ [⟨"assistant", (st.1.getLastD ⟨"assistant", ""⟩).content ++ event.output⟩],
      st.2.1, st.2.2 ++ event.output)

/-- `ChatbotUI.stream_response`. A blank or whitespace-only prompt
appends the canned message to the display history only and returns.
Otherwise: show the user message and a thinking bubble (`thinking` is
the randomly chosen placeholder), reset the bubble, append the user
turn to the conversation, consume `process_query`'s events, and finally
append the accumulated answer to the conversation (skipped if the
pipeline aborted with an error, which then escapes the generator). -/
def stream_response (prompt thinking : String)
    (chatbot conversation : List Message)
    (output_parsed : Option OrchestratorRoute)
    (professional_info_run : String → EvidenceBundle)
    (presentation_stream : List StreamEvent) : StreamOutcome :=
  if blankPrompt prompt then
    { chatbot := chatbot ++ [⟨"assistant", "Please enter a question."⟩],
      conversation := conversation,
      final_response := "",
      agents_invoked := false,
      error := none }
  else
    let chatbot1 := chatbot ++ [⟨"user", prompt⟩, ⟨"assistant", thinking⟩]
    let chatbot2 := chatbot1.dropLast ++ [⟨"assistant", ""⟩]
    let conversation1 := conversation ++ [⟨"user", prompt⟩]
    let result := process_query output_parsed professional_info_run presentation_stream prompt
    let folded := result.1.foldl streamResponseStep (chatbot2, conversation1, "")
    match result.2 with
    | some e =>
      { chatbot := folded.1, conversation := folded.2.1,
        final_response := folded.2.2, agents_invoked := true, error := some e }
    | none =>
      { chatbot := folded.1,
        conversation := folded.2.1 ++ [⟨"assistant", folded.2.2⟩],
        final_response := folded.2.2, agents_invoked := true, error := none }

/-! ### Concrete fixtures for witnesses and counterexamples -/

/-- Concrete retrieval dependencies: threshold `0`, the cross-encoder
scores passages "a" and "c" equally at `1`, "b" at `2`, "d" at `-1`. -/
def depsW : RetrievalDeps where
  reranker := fun p =>
    if p.2 = "a" then 1 else if p.2 = "b" then 2 else if p.2 = "c" then 1 else -1
  config := {}

/-- Concrete candidate list. -/
def docsW : List Document := [⟨"a"⟩, ⟨"b"⟩, ⟨"c"⟩, ⟨"d"⟩]

/-- Concrete dependencies whose cross-encoder scores everything at `-1`. -/
def depsW0 : RetrievalDeps where
  reranker := fun _ => -1
  config := {}

/-- A concrete evidence bundle. -/
def bundleW : EvidenceBundle where
  coverage_assessment := { sufficient := false, missing_points := [] }
  claims := []

/-- A concrete routing decision taking the pure refusal path:
`refusal_directive.needed = true` and no downstream requests. -/
def refusalRouteW : OrchestratorRoute where
  reinterpretation := { needed := false }
  downstream_requests := []
  refusal_directive := { needed := true, reason := some "out of scope" }

/-- A concrete routing decision whose only downstream request targets
the public-persona agent, not the evidence agent. -/
def publicPersonaRouteW : OrchestratorRoute where
  reinterpretation := { needed := false }
  downstream_requests := [{ agent := .public_persona, task := "summarize public videos" }]
  refusal_directive := { needed := false }

/-- A concrete routing decision with two downstream requests. -/
def twoReqRouteW : OrchestratorRoute where
  reinterpretation := { needed := false }
  downstream_requests :=
    [{ agent := .professional_info, task := "task one" },
     { agent := .public_persona, task := "task two" }]
  refusal_directive := { needed := false }

/-- The conversation transcript entry produced by one agent event in
`stream_response`'s loop: routing/evidence/persona outputs become an
assistant turn, presentation fragments do not. -/
def eventConvMsg (e : AgentEvent) : Option Message :=
  match e.from_ with
  | .final_presentation => none
  | _ => some ⟨"assistant", e.output⟩

/-! ### Theorems -/

/-- The conversation component of `stream_response`'s event loop:
each pass appends exactly the entries described by `eventConvMsg`. -/
theorem foldl_streamResponseStep_conversation (events : List AgentEvent)
    (cb conv : List Message) (fr : String) :
    (events.foldl streamResponseStep (cb, conv, fr)).2.1
      = conv ++ events.filterMap eventConvMsg := by
  induction events generalizing cb conv fr with
  | nil => simp
  | cons e rest ih =>
    obtain ⟨src, out⟩ := e
    cases src <;>
      simp [streamResponseStep, eventConvMsg, ih, List.append_assoc]

/-- C1: for every query and candidate list, `retrieve_and_rerank` is the
text projection of a pair list that (a) is sorted with scores
non-increasing and (b) is a permutation of exactly those scored
candidates whose score is strictly above the configured threshold. -/
theorem retrieve_and_rerank_ordered_and_filtered
    (deps : RetrievalDeps) (search_query : String)
    (retrieved_results : List Document) :
    retrieve_and_rerank deps search_query retrieved_results =
        (rankedDocsSorted deps search_query retrieved_results).map Prod.fst
    ∧ (rankedDocsSorted deps search_query retrieved_results).Sorted descScore
    ∧ (rankedDocsSorted deps search_query retrieved_results).Perm
        (((retrieved_results.zip (rerankerScores deps search_query retrieved_results)).filter
            (fun p => decide (deps.config.reranker_threshold < p.2))).map
          (fun p => (p.1.page_content, p.2))) :=
  ⟨rfl, List.sorted_insertionSort descScore _,
    List.perm_insertionSort descScore (rankedDocs deps search_query retrieved_results)⟩

/-- C2: the descending sort is stable: two surviving candidates with
equal rerank score keep their relative order from the retrieval stage. -/
theorem retrieve_and_rerank_stable_ties
    (deps : RetrievalDeps) (search_query : String)
    (retrieved_results : List Document) (x y : String × Rat)
    (hscore : x.2 = y.2)
    (hpair : [x, y].Sublist (rankedDocs deps search_query retrieved_results)) :
    [x, y].Sublist (rankedDocsSorted deps search_query retrieved_results) :=
  List.pair_sublist_insertionSort (le_of_eq hscore.symm) hpair

/-- Witness for C2: concrete equal-score candidates "a" and "c" keep
their retrieval order in the sorted output. -/
theorem retrieve_and_rerank_stable_ties_witness :
    ("a", (1 : Rat)).2 = ("c", (1 : Rat)).2
    ∧ [("a", (1 : Rat)), ("c", 1)].Sublist (rankedDocs depsW "q" docsW)
    ∧ [("a", (1 : Rat)), ("c", 1)].Sublist (rankedDocsSorted depsW "q" docsW) :=
  ⟨rfl, by decide,
    retrieve_and_rerank_stable_ties depsW "q" docsW _ _ rfl (by decide)⟩

/-- C3: an empty candidate list, or one where every cross-encoder score
is at or below the threshold, yields an empty result (and no error). -/
theorem retrieve_and_rerank_empty
    (deps : RetrievalDeps) (search_query : String)
    (retrieved_results : List Document)
    (h : retrieved_results = [] ∨
      ∀ s ∈ rerankerScores deps search_query retrieved_results,
        s ≤ deps.config.reranker_threshold) :
    retrieve_and_rerank deps search_query retrieved_results = [] := by
  have hnil : rankedDocs deps search_query retrieved_results = [] := by
    rcases h with h | h
    · subst h; rfl
    · unfold rankedDocs
      rw [List.filter_eq_nil_iff.mpr, List.map_nil]
      intro p hp
      have hp2 : p.2 ∈ rerankerScores deps search_query retrieved_results :=
        (List.of_mem_zip hp).2
      simpa using h p.2 hp2
  unfold retrieve_and_rerank rankedDocsSorted
  rw [hnil]
  rfl

/-- Witness for C3: with every score `-1 ≤ 0`, the result is empty. -/
theorem retrieve_and_rerank_empty_witness :
    (∀ s ∈ rerankerScores depsW0 "q" docsW, s ≤ depsW0.config.reranker_threshold)
    ∧ retrieve_and_rerank depsW0 "q" docsW = [] :=
  ⟨by decide, retrieve_and_rerank_empty depsW0 "q" docsW (Or.inr (by decide))⟩

/-- C4: a blank or whitespace-only prompt short-circuits to the fixed
"Please enter a question." display message; no agent runs and no
conversation turn is produced. -/
theorem stream_response_blank_short_circuit
    (prompt thinking : String) (chatbot conversation : List Message)
    (output_parsed : Option OrchestratorRoute)
    (professional_info_run : String → EvidenceBundle)
    (presentation_stream : List StreamEvent)
    (h : blankPrompt prompt) :
    stream_response prompt thinking chatbot conversation output_parsed
        professional_info_run presentation_stream =
      { chatbot := chatbot ++ [⟨"assistant", "Please enter a question."⟩],
        conversation := conversation,
        final_response := "",
        agents_invoked := false,
        error := none } := by
  unfold stream_response
  rw [if_pos h]

/-- Witness for C4 at the whitespace-only prompt `"   "`. -/
theorem stream_response_blank_short_circuit_witness :
    blankPrompt "   "
    ∧ stream_response "   " "Thinking..." [] [] none (fun _ => bundleW) [] =
        { chatbot := [⟨"assistant", "Please enter a question."⟩],
          conversation := [],
          final_response := "",
          agents_invoked := false,
          error := none } :=
  ⟨by decide,
    stream_response_blank_short_circuit "   " "Thinking..." [] [] none
      (fun _ => bundleW) [] (by decide)⟩

/-- C5: when the completion service's parsed routing output is empty,
the routing call fails with the parse-failure error (no retry) and the
pipeline emits zero events. -/
theorem process_query_routing_parse_failure
    (professional_info_run : String → EvidenceBundle)
    (presentation_stream : List StreamEvent) (user_query : String) :
    orchestratorRun none = Except.error PipelineError.routingParseFailure
    ∧ process_query none professional_info_run presentation_stream user_query
      = ([], some PipelineError.routingParseFailure) :=
  ⟨rfl, rfl⟩

set_option maxRecDepth 10000 in
/-- Counterexample to C6: for a routing decision with no
evidence-targeting request, the coordinator still appends the raw
serialized routing JSON to the conversation transcript. -/
theorem conversation_raw_routing_json_counterexample :
    (∀ r ∈ refusalRouteW.downstream_requests,
        r.agent ≠ DownstreamAgent.professional_info)
    ∧ Message.mk "assistant" refusalRouteW.model_dump_json ∈
        (stream_response "Tell me a joke" "Thinking..." [] [] (some refusalRouteW)
          (fun _ => bundleW)
          [.output_text_delta "Hello!", .completed]).conversation := by
  constructor
  · intro r hr
    simp [refusalRouteW] at hr
  · decide

/-- C6 as amended: for every non-blank prompt whose routing call
parses, the coordinator appends the raw serialized routing-decision
JSON to the conversation transcript, whether or not the decision
routes to the evidence agent. -/
theorem conversation_gets_raw_routing_json
    (prompt thinking : String) (chatbot conversation : List Message)
    (route : OrchestratorRoute)
    (professional_info_run : String → EvidenceBundle)
    (presentation_stream : List StreamEvent)
    (h : ¬ blankPrompt prompt) :
    Message.mk "assistant" route.model_dump_json ∈
      (stream_response prompt thinking chatbot conversation (some route)
        professional_info_run presentation_stream).conversation := by
  unfold stream_response
  rw [if_neg h]
  simp only [process_query, orchestratorRun,
    foldl_streamResponseStep_conversation, List.filterMap_append]
  simp [eventConvMsg]

/-- Witness for the amended C6 at a concrete non-blank prompt. -/
theorem conversation_gets_raw_routing_json_witness :
    ¬ blankPrompt "Hi"
    ∧ Message.mk "assistant" publicPersonaRouteW.model_dump_json ∈
        (stream_response "Hi" "Thinking..." [] [] (some publicPersonaRouteW)
          (fun _ => bundleW) [.output_text_delta "Hello!", .completed]).conversation :=
  ⟨by decide,
    conversation_gets_raw_routing_json "Hi" "Thinking..." [] [] publicPersonaRouteW
      (fun _ => bundleW) [.output_text_delta "Hello!", .completed] (by decide)⟩

/-- Counterexample to C7: a presentation stream that ends without the
explicit completion marker yields exactly the same successful fragment
list as the completed stream; the partial concatenation is presented
as a complete answer with no distinct truncation outcome. -/
theorem final_presentation_truncation_counterexample :
    finalPresentationRun [.output_text_delta "partial answer"] = ["partial answer"]
    ∧ finalPresentationRun [.output_text_delta "partial answer", .completed]
      = ["partial answer"] :=
  ⟨rfl, rfl⟩

/-- C7 as amended: the presentation run cannot distinguish truncation
from completion: for every stream without a completion marker,
appending the marker does not change the fragments produced. -/
theorem final_presentation_truncation_invisible (events : List StreamEvent)
    (h : StreamEvent.completed ∉ events) :
    finalPresentationRun (events ++ [StreamEvent.completed])
      = finalPresentationRun events := by
  induction events with
  | nil => rfl
  | cons e rest ih =>
    cases e with
    | output_text_delta d =>
      simp only [List.cons_append, finalPresentationRun]
      exact congrArg (d :: ·) (ih fun hm => h (List.mem_cons_of_mem _ hm))
    | completed => exact absurd (List.mem_cons_self _ _) h
    | other =>
      simp only [List.cons_append, finalPresentationRun]
      exact ih fun hm => h (List.mem_cons_of_mem _ hm)

/-- Witness for the amended C7 on a one-delta stream. -/
theorem final_presentation_truncation_invisible_witness :
    StreamEvent.completed ∉ [StreamEvent.output_text_delta "hi"]
    ∧ finalPresentationRun
        ([StreamEvent.output_text_delta "hi"] ++ [StreamEvent.completed])
      = finalPresentationRun [StreamEvent.output_text_delta "hi"] :=
  ⟨by decide,
    final_presentation_truncation_invisible
      [StreamEvent.output_text_delta "hi"] (by decide)⟩

/-- Counterexample to C8: a decision whose only downstream request
targets the public-persona agent (no evidence request exists) still
gets a task directive appended to the presentation prompt. -/
theorem format_input_task_directive_counterexample :
    (∀ r ∈ publicPersonaRouteW.downstream_requests,
        r.agent ≠ DownstreamAgent.professional_info)
    ∧ format_input "hello" none publicPersonaRouteW
      = format_input_base "hello" none publicPersonaRouteW
          ++ "Task directive: " ++ "summarize public videos" := by
  constructor
  · intro r hr
    simp [publicPersonaRouteW] at hr
    simp [hr]
  · rfl

/-- C8 as amended: the task directive is appended exactly when
`downstream_requests` is non-empty — regardless of the target agent —
and the appended text is the last request's task field. -/
theorem format_input_task_directive (user_query : String)
    (evidence_bundle : Option EvidenceBundle)
    (orchestrator_output : OrchestratorRoute) :
    (orchestrator_output.downstream_requests = [] →
      format_input user_query evidence_bundle orchestrator_output
        = format_input_base user_query evidence_bundle orchestrator_output)
    ∧ ∀ last, orchestrator_output.downstream_requests.getLast? = some last →
        format_input user_query evidence_bundle orchestrator_output
          = format_input_base user_query evidence_bundle orchestrator_output
              ++ "Task directive: " ++ last.task := by
  constructor
  · intro hnil
    unfold format_input
    rw [hnil]
    rfl
  · intro last hlast
    unfold format_input
    rw [hlast]

/-- Witness for the amended C8: with two downstream requests, the
directive text is the second (last) request's task. -/
theorem format_input_task_directive_witness :
    twoReqRouteW.downstream_requests.getLast?
      = some { agent := .public_persona, task := "task two" }
    ∧ format_input "q" none twoReqRouteW
      = format_input_base "q" none twoReqRouteW
          ++ "Task directive: " ++ "task two" :=
  ⟨rfl, (format_input_task_directive "q" none twoReqRouteW).2 _ rfl⟩

/-- C9: for every invocation of the presentation formatter with an
absent evidence bundle — whatever the routing decision (pure refusal,
chit-chat, or persona-only requests) — each evidence-derived field is
rendered as the fixed absence marker "none", the full formatted prompt
extends that all-absent rendering (nothing is omitted and the formatter
totals on the missing bundle), and whenever no downstream request
targets the evidence agent (exactly the runs that leave the bundle
absent) the pipeline emits no evidence event. -/
theorem format_input_absent_evidence (user_query : String)
    (route : OrchestratorRoute)
    (professional_info_run : String → EvidenceBundle)
    (presentation_stream : List StreamEvent)
    (hnoev : ∀ r ∈ route.downstream_requests,
      r.agent ≠ DownstreamAgent.professional_info) :
    format_input_base user_query none route
      = "Original user query: " ++ user_query ++ "\n"
        ++ "Coverage assessment: " ++ "none" ++ "\n"
        ++ "Claims: " ++ "none" ++ "\n"
        ++ "Relevant projects: " ++ "none" ++ "\n"
        ++ "Safe redirect: " ++ "none" ++ "\n"
        ++ "Refusal directive: " ++ route.refusal_directive.model_dump_json ++ "\n"
    ∧ (∃ rest, format_input user_query none route
        = format_input_base user_query none route ++ rest)
    ∧ ∀ e ∈ (process_query (some route) professional_info_run
          presentation_stream user_query).1,
        e.from_ ≠ AgentSource.professional_info := by
  refine ⟨rfl, ?_, ?_⟩
  · unfold format_input
    rcases hl : route.downstream_requests.getLast? with _ | last
    · exact ⟨"", (String.append_empty _).symm⟩
    · exact ⟨"Task directive: " ++ last.task, String.append_assoc _ _ _⟩
  · intro e he
    have hfm : (route.downstream_requests.filterMap (fun request =>
        if request.agent = DownstreamAgent.professional_info then
          some (AgentEvent.mk .professional_info
            (professional_info_run
              (format_professional_info_prompt user_query request)).model_dump_json)
        else none)) = [] := by
      rw [List.filterMap_eq_nil_iff]
      intro r hr
      rw [if_neg (hnoev r hr)]
    simp only [process_query, orchestratorRun, hfm,
      List.append_nil, List.nil_append, List.mem_append, List.mem_singleton,
      List.mem_map] at he
    rcases he with he | ⟨f, _, he⟩
    · rw [he]
      intro hcontra
      exact AgentSource.noConfusion hcontra
    · rw [← he]
      intro hcontra
      exact AgentSource.noConfusion hcontra

/-- Witness for C9 on a concrete absent-evidence-bundle route outside
the pure refusal path: no refusal is needed and the only downstream
request targets the public-persona agent. -/
theorem format_input_absent_evidence_witness :
    (∀ r ∈ publicPersonaRouteW.downstream_requests,
        r.agent ≠ DownstreamAgent.professional_info)
    ∧ format_input_base "Who are you?" none publicPersonaRouteW
      = "Original user query: " ++ "Who are you?" ++ "\n"
        ++ "Coverage assessment: " ++ "none" ++ "\n"
        ++ "Claims: " ++ "none" ++ "\n"
        ++ "Relevant projects: " ++ "none" ++ "\n"
        ++ "Safe redirect: " ++ "none" ++ "\n"
        ++ "Refusal directive: " ++ publicPersonaRouteW.refusal_directive.model_dump_json ++ "\n"
    ∧ (∃ rest, format_input "Who are you?" none publicPersonaRouteW
        = format_input_base "Who are you?" none publicPersonaRouteW ++ rest)
    ∧ ∀ e ∈ (process_query (some publicPersonaRouteW) (fun _ => bundleW)
          [.output_text_delta "Hi", .completed] "Who are you?").1,
        e.from_ ≠ AgentSource.professional_info :=
  ⟨by decide,
    (format_input_absent_evidence "Who are you?" publicPersonaRouteW (fun _ => bundleW)
      [.output_text_delta "Hi", .completed] (by decide)).1,
    (format_input_absent_evidence "Who are you?" publicPersonaRouteW (fun _ => bundleW)
      [.output_text_delta "Hi", .completed] (by decide)).2.1,
    (format_input_absent_evidence "Who are you?" publicPersonaRouteW (fun _ => bundleW)
      [.output_text_delta "Hi", .completed] (by decide)).2.2⟩

/-- C10: a blank or whitespace-only prompt leaves the agent-facing
conversation transcript unchanged; the canned message goes only to the
display-only chat history. -/
theorem stream_response_blank_conversation_unchanged
    (prompt thinking : String) (chatbot conversation : List Message)
    (output_parsed : Option OrchestratorRoute)
    (professional_info_run : String → EvidenceBundle)
    (presentation_stream : List StreamEvent)
    (h : blankPrompt prompt) :
    (stream_response prompt thinking chatbot conversation output_parsed
        professional_info_run presentation_stream).conversation = conversation
    ∧ (stream_response prompt thinking chatbot conversation output_parsed
        professional_info_run presentation_stream).chatbot
      = chatbot ++ [⟨"assistant", "Please enter a question."⟩] := by
  unfold stream_response
  rw [if_pos h]
  exact ⟨rfl, rfl⟩

/-- Witness for C10 at the whitespace-only prompt `" \t "`. -/
theorem stream_response_blank_conversation_unchanged_witness :
    blankPrompt " \t "
    ∧ (stream_response " \t " "Thinking..." [⟨"assistant", "Welcome"⟩]
          [⟨"user", "old"⟩] none (fun _ => bundleW) []).conversation
      = [⟨"user", "old"⟩]
    ∧ (stream_response " \t " "Thinking..." [⟨"assistant", "Welcome"⟩]
          [⟨"user", "old"⟩] none (fun _ => bundleW) []).chatbot
      = [⟨"assistant", "Welcome"⟩, ⟨"assistant", "Please enter a question."⟩] :=
  ⟨by decide,
    (stream_response_blank_conversation_unchanged " \t " "Thinking..."
      [⟨"assistant", "Welcome"⟩] [⟨"user", "old"⟩] none (fun _ => bundleW) []
      (by decide)).1,
    (stream_response_blank_conversation_unchanged " \t " "Thinking..."
      [⟨"assistant", "Welcome"⟩] [⟨"user", "old"⟩] none (fun _ => bundleW) []
      (by decide)).2⟩

end PortfolioChatbot
